import Mathlib

/-!
Verification development for the dbus-sensors core engine: a shallow
embedding of the generic sensor value-update / error-latching / power-gating
machinery (src/include/sensor.hpp), the PSU sub-event poll-cycle lifecycle
state machine (PSUEvent.cpp), the retired-generation ("trash") sweep and the
master-timer drift correction (HwmonTempSensor.cpp), and the power gate
(MCTPEndpoint.cpp).

Doubles are modelled as `Dbl`: either NaN or an exact rational.  The code
paths under study use floating point only for comparisons, absolute
differences and NaN checks, none of which depend on rounding, so rationals
are an adequate model.  D-Bus interfaces are modelled by presence booleans
plus the stored property cells; `set_property` invokes the registered setter
callback, exactly as sdbusplus does (this is why the source needs its
`internalSet` flag).
-/

/-- Model of a C++ `double` as used by the sensor engine: NaN or a finite
value (exact rational; rounding is irrelevant to the embedded code paths). -/
inductive Dbl where
  | nan : Dbl
  | fin : ℚ → Dbl
deriving DecidableEq

/-- Model of `std::isnan`. -/
def Dbl.isNan : Dbl → Bool
  | .nan => true
  | .fin _ => false

/-- PowerState enumeration (`PowerState::always/on/biosPost`). -/
inductive PowerState where
  | always : PowerState
  | on : PowerState
  | biosPost : PowerState
deriving DecidableEq

/-- Process-wide cached power state (MCTPEndpoint.cpp lines 543-545):
`powerMatch` (the D-Bus subscription object) may not exist yet;
`powerStatusOn` and `biosHasPost` are the cached booleans
(both initialised to `false`). -/
structure PowerEnv where
  matchExists : Bool
  powerStatusOn : Bool
  biosHasPost : Bool
deriving DecidableEq

/-- Embedding of `isPowerOn` (MCTPEndpoint.cpp lines 624-631): throws
`std::runtime_error` when `powerMatch` has not been created, else returns
the cached `powerStatusOn`. -/
def isPowerOn (env : PowerEnv) : Except Unit Bool :=
  if env.matchExists = false then Except.error ()
  else Except.ok env.powerStatusOn

/-- Embedding of `hasBiosPost` (MCTPEndpoint.cpp lines 633-640). -/
def hasBiosPost (env : PowerEnv) : Except Unit Bool :=
  if env.matchExists = false then Except.error ()
  else Except.ok env.biosHasPost

/-- Embedding of `Sensor::readingStateGood` (sensor.hpp lines 425-438) with
exceptions made explicit: `readState == on` consults `isPowerOn()`;
`readState == biosPost` consults `hasBiosPost()` and, short-circuiting,
`isPowerOn()`; `always` consults nothing.  Since `readState` selects exactly
one branch, the two sequential `if`s of the source are a `match` here. -/
def readingStateGoodE (env : PowerEnv) (readState : PowerState) :
    Except Unit Bool :=
  match readState with
  | .on =>
    match isPowerOn env with
    | .error e => .error e
    | .ok p => if p = false then .ok false else .ok true
  | .biosPost =>
    match hasBiosPost env with
    | .error e => .error e
    | .ok b =>
      if b = false then
        match isPowerOn env with
        | .error e => .error e
        | .ok _ => .ok false
      else
        match isPowerOn env with
        | .error e => .error e
        | .ok p => if p = false then .ok false else .ok true
  | .always => .ok true

/-- `readingStateGood` in the post-setup regime (after `setupPowerMatch` has
run, so `powerMatch` exists and no exception can occur).  Sensor operations
below use this form; `readingStateGoodE_ok` proves it agrees with the
exception-explicit embedding whenever the match exists. -/
def readingStateGood (env : PowerEnv) (readState : PowerState) : Bool :=
  if readState = PowerState.on ∧ env.powerStatusOn = false then false
  else if readState = PowerState.biosPost ∧
      (env.biosHasPost = false ∨ env.powerStatusOn = false) then false
  else true

/-- `errorThreshold` (sensor.hpp line 28): consecutive read failures at which
`Functional` is latched false. -/
def errorThreshold : Nat := 5

/-- Build-time configuration consulted by `Sensor::setSensorValue`:
the `insecureSensorOverride` build flag and `getManufacturingMode()`. -/
structure BuildCfg where
  insecureSensorOverride : Bool
  manufacturingMode : Bool
deriving DecidableEq

/-- State of one `Sensor` (sensor.hpp lines 41-555), generic over the alarm
state `α` owned by the derived class's `checkThresholds` implementation
(`checkThresholds` is pure virtual in the base; it is modelled throughout as
a function `chk : α → Dbl → α` applied to the alarm state and current value).
D-Bus interface pointers are modelled as presence flags plus the stored
property cells (`publishedValue` for "Value", `availableProp` for
"Available", `functionalProp` for "Functional").  `publishCount`,
`checkCount` and `hookCalls` are ghost counters of `set_property("Value")`
attempts, `checkThresholds()` invocations and `externalSetHook` firings. -/
structure SensorSt (α : Type) where
  isSensorSettable : Bool
  maxValue : ℚ
  minValue : ℚ
  value : Dbl
  overriddenState : Bool
  internalSet : Bool
  hysteresisTrigger : ℚ
  hysteresisPublish : ℚ
  readState : PowerState
  errCount : Nat
  hasSensorIface : Bool
  hasAvailableIface : Bool
  hasOperationalIface : Bool
  publishedValue : Dbl
  availableProp : Bool
  functionalProp : Bool
  publishCount : Nat
  checkCount : Nat
  hookCalls : Nat
  alarms : α
deriving DecidableEq

/-- Embedding of the `Sensor` constructor initialiser list (sensor.hpp lines
43-59: `value` and `rawValue` start NaN, `overriddenState`/`internalSet`
false, `errCount` 0, `hysteresisTrigger = (max - min) * 0.01`,
`hysteresisPublish = (max - min) * 0.0001`) together with
`setInitialProperties` (lines 265-397), which always creates the value,
availability and operational interfaces with "Available" and "Functional"
initially true. -/
def SensorSt.make (isSettable : Bool) (maxV minV : ℚ) (readState : PowerState)
    (alarms0 : α) : SensorSt α :=
  { isSensorSettable := isSettable
    maxValue := maxV
    minValue := minV
    value := Dbl.nan
    overriddenState := false
    internalSet := false
    hysteresisTrigger := (maxV - minV) * (1 / 100)
    hysteresisPublish := (maxV - minV) * (1 / 10000)
    readState := readState
    errCount := 0
    hasSensorIface := true
    hasAvailableIface := true
    hasOperationalIface := true
    publishedValue := Dbl.nan
    availableProp := true
    functionalProp := true
    publishCount := 0
    checkCount := 0
    hookCalls := 0
    alarms := alarms0 }

/-- Embedding of `Sensor::requiresUpdate` (sensor.hpp lines 533-545): update
needed when either value is NaN or the absolute difference exceeds the
publish hysteresis. -/
def requiresUpdate (hysteresisPublish : ℚ) (lVal rVal : Dbl) : Bool :=
  match lVal, rVal with
  | .nan, _ => true
  | _, .nan => true
  | .fin a, .fin b => decide (|a - b| > hysteresisPublish)

/-- Embedding of `Sensor::setSensorValue` (sensor.hpp lines 229-263), the
setter registered for the "Value" property.  On an external (non-internal)
set: unless overriding is permitted (insecure build flag, settable sensor,
or manufacturing mode), return `-EACCES` (= -13) untouched; otherwise pin
the value (`overriddenState = true`), store it, run `checkThresholds()` and
fire the external-set hook.  On an internal set, only the property cell is
refreshed, and only while not overridden. -/
def setSensorValue (chk : α → Dbl → α) (cfg : BuildCfg) (s : SensorSt α)
    (newValue : Dbl) : Int × SensorSt α :=
  if s.internalSet = false then
    if cfg.insecureSensorOverride = false ∧ s.isSensorSettable = false ∧
        cfg.manufacturingMode = false then
      (-13, s)
    else
      (1, { s with publishedValue := newValue
                   overriddenState := true
                   value := newValue
                   alarms := chk s.alarms newValue
                   checkCount := s.checkCount + 1
                   hookCalls := s.hookCalls + 1 })
  else if s.overriddenState = false then
    (1, { s with publishedValue := newValue })
  else
    (1, s)

/-- Embedding of `Sensor::updateProperty` (sensor.hpp lines 517-531)
instantiated at the "Value" property: when `requiresUpdate`, assign the
cached value and, if the interface exists, call `set_property`, which
invokes the registered setter `setSensorValue`. -/
def updateProperty (chk : α → Dbl → α) (cfg : BuildCfg) (s : SensorSt α)
    (newValue : Dbl) : SensorSt α :=
  if requiresUpdate s.hysteresisPublish s.value newValue = true then
    let s1 := { s with value := newValue }
    if s1.hasSensorIface = true then
      let s2 := { s1 with publishCount := s1.publishCount + 1 }
      (setSensorValue chk cfg s2 newValue).2
    else s1
  else s

/-- Embedding of `Sensor::updateValueProperty` (sensor.hpp lines 548-554):
wraps `updateProperty` in the `internalSet` flag. -/
def updateValueProperty (chk : α → Dbl → α) (cfg : BuildCfg) (s : SensorSt α)
    (newValue : Dbl) : SensorSt α :=
  let s1 := { s with internalSet := true }
  let s2 := updateProperty chk cfg s1 newValue
  { s2 with internalSet := false }

/-- Embedding of the setter registered for the "Available" property
(sensor.hpp lines 373-385): no-op when unchanged; on a transition to false,
call `updateValue(NaN)` — passed in as the continuation `upd`, since
`updateValue` is defined below with explicit reentrancy fuel. -/
def availSetProperty (upd : SensorSt α → SensorSt α) (s : SensorSt α)
    (propIn : Bool) : SensorSt α :=
  if propIn = s.availableProp then s
  else
    let s1 := { s with availableProp := propIn }
    if propIn = false then upd s1 else s1

/-- Embedding of `Sensor::markAvailable` (sensor.hpp lines 456-463): when the
availability interface exists, `set_property("Available", b)` (which invokes
`availSetProperty`) and reset `errCount`. -/
def markAvailableWith (upd : SensorSt α → SensorSt α) (s : SensorSt α)
    (isAvailable : Bool) : SensorSt α :=
  if s.hasAvailableIface = true then
    let s1 := availSetProperty upd s isAvailable
    { s1 with errCount := 0 }
  else s

/-- Embedding of `Sensor::markFunctional` (sensor.hpp lines 440-454):
publish "Functional" when the operational interface exists; on functional,
reset `errCount`; on non-functional, `updateValue(NaN)` (continuation
`upd`). -/
def markFunctionalWith (upd : SensorSt α → SensorSt α) (s : SensorSt α)
    (isFunctional : Bool) : SensorSt α :=
  let s1 := if s.hasOperationalIface = true then
    { s with functionalProp := isFunctional } else s
  if isFunctional = true then { s1 with errCount := 0 } else upd s1

/-- Embedding of `Sensor::updateValue` (sensor.hpp lines 486-515) with
explicit fuel bounding the reentrant `set_property` chain
(`updateValue → markAvailable → Available setter → updateValue(NaN)`;
the chain terminates after depth 2 because the second `markAvailable` sees
an unchanged property, so any fuel ≥ 3 computes the real semantics).
`updateInstrumentation` is a no-op (`enableInstrumentation` is false) and is
omitted. -/
def updateValueF (chk : α → Dbl → α) (cfg : BuildCfg) (env : PowerEnv) :
    Nat → SensorSt α → Dbl → SensorSt α
  | 0, s, _ => s
  | fuel + 1, s, newValue =>
    let upd := fun t => updateValueF chk cfg env fuel t Dbl.nan
    if s.overriddenState = true then s
    else if readingStateGood env s.readState = false then
      let s1 := markAvailableWith upd s false
      updateValueProperty chk cfg s1 Dbl.nan
    else
      let s1 := updateValueProperty chk cfg s newValue
      let s2 := { s1 with alarms := chk s1.alarms s1.value
                          checkCount := s1.checkCount + 1 }
      if newValue.isNan = false then
        let s3 := markFunctionalWith upd s2 true
        markAvailableWith upd s3 true
      else s2

/-- Fuel ample for the deepest reentrant `set_property` chain (depth 2). -/
def updFuel : Nat := 4

/-- `Sensor::updateValue` at ample fuel. -/
def updateValue (chk : α → Dbl → α) (cfg : BuildCfg) (env : PowerEnv)
    (s : SensorSt α) (newValue : Dbl) : SensorSt α :=
  updateValueF chk cfg env updFuel s newValue

/-- `Sensor::markAvailable` at ample fuel. -/
def markAvailable (chk : α → Dbl → α) (cfg : BuildCfg) (env : PowerEnv)
    (s : SensorSt α) (isAvailable : Bool) : SensorSt α :=
  markAvailableWith (fun t => updateValueF chk cfg env updFuel t Dbl.nan) s
    isAvailable

/-- `Sensor::markFunctional` at ample fuel. -/
def markFunctional (chk : α → Dbl → α) (cfg : BuildCfg) (env : PowerEnv)
    (s : SensorSt α) (isFunctional : Bool) : SensorSt α :=
  markFunctionalWith (fun t => updateValueF chk cfg env updFuel t Dbl.nan) s
    isFunctional

/-- Embedding of `Sensor::incrementError` (sensor.hpp lines 465-484): while
the reading state is not good, only mark unavailable; otherwise saturate at
`errorThreshold` and, exactly when the incremented count reaches the
threshold, latch `Functional` false. -/
def incrementError (chk : α → Dbl → α) (cfg : BuildCfg) (env : PowerEnv)
    (s : SensorSt α) : SensorSt α :=
  if readingStateGood env s.readState = false then
    markAvailable chk cfg env s false
  else if errorThreshold ≤ s.errCount then s
  else
    let s1 := { s with errCount := s.errCount + 1 }
    if s1.errCount = errorThreshold then markFunctional chk cfg env s1 false
    else s1


/-- `warnAfterErrorCount` for PSU sub-events (PSUEvent.hpp). -/
def warnAfterErrorCount : Nat := 10

/-- State of one `PSUSubEvent` (PSUEvent.cpp): the retirement flags
(`deleteRequested`, `deleteQuiescent`), the in-flight operation flags
(`pendingRead`, `pendingTime`), the reading state (`value`, `errCount`), and
the shared assert bookkeeping reached through `shared_ptr`s in the source
(`asserts`, `combineEvent`, `assertState`) plus the "functional" property of
the shared event interface.  The shared cells are represented in-state;
the claims under study concern a single sub-event's lifecycle. -/
structure SubEventSt where
  deleteRequested : Bool
  deleteQuiescent : Bool
  pendingRead : Bool
  pendingTime : Bool
  value : Int
  errCount : Nat
  path : String
  groupEventName : String
  asserts : List String
  combineEvent : List String
  assertState : Bool
  functionalProp : Bool
deriving DecidableEq

/-- `std::set::emplace`: insert unless present. -/
def listInsert (x : String) (l : List String) : List String :=
  if x ∈ l then l else x :: l

/-- Embedding of `PSUSubEvent::updateValue` (PSUEvent.cpp lines 288-392).
Mirrors the source's early returns: in the deassert (0) path, removing this
path from a non-empty assert set, a missing path, and a missing group name
in `combineEvent` all return without reaching the final `value = newValue`
assignment. -/
def SubEventSt.updateValue (s : SubEventSt) (newValue : Int) : SubEventSt :=
  if newValue = s.value then s
  else if newValue = 0 then
    if s.asserts ≠ [] then
      if s.path ∈ s.asserts then { s with asserts := s.asserts.erase s.path }
      else s
    else if s.assertState = true then
      let s1 := { s with assertState := false }
      if s1.groupEventName ∈ s1.combineEvent then
        let s2 :=
          { s1 with combineEvent := s1.combineEvent.erase s1.groupEventName }
        let s3 :=
          if s2.combineEvent = [] then { s2 with functionalProp := true }
          else s2
        { s3 with value := newValue }
      else s1
    else { s with value := newValue }
  else
    let s1 :=
      if s.assertState = false ∧ s.asserts = [] then
        let t1 := { s with assertState := true }
        let t2 :=
          if t1.combineEvent = [] then { t1 with functionalProp := false }
          else t1
        { t2 with combineEvent := listInsert t2.groupEventName t2.combineEvent }
      else s
    { s1 with asserts := listInsert s1.path s1.asserts, value := newValue }

/-- Completion handed to `PSUSubEvent::handleResponse`: cancelled, stale
descriptor, other I/O error, or a line that parsed (`some n`) or threw
`std::invalid_argument` in `std::stoi` (`none`). -/
inductive ReadOutcome where
  | aborted : ReadOutcome
  | badFd : ReadOutcome
  | ioError : ReadOutcome
  | parsed : Option Int → ReadOutcome
deriving DecidableEq

/-- Embedding of `PSUSubEvent::handleResponse` (PSUEvent.cpp lines 213-283):
clear `pendingRead`; quiesce and stop if `deleteRequested`; bail out on the
two fatal errors without rescheduling; otherwise process the line, run the
error-count escalation, and arm the reschedule timer (`pendingTime`). -/
def SubEventSt.handleResponse (s : SubEventSt) (r : ReadOutcome) :
    SubEventSt :=
  let s0 := { s with pendingRead := false }
  if s0.deleteRequested = true then { s0 with deleteQuiescent := true }
  else if r = ReadOutcome.aborted then s0
  else if r = ReadOutcome.badFd then s0
  else
    let s1 :=
      match r with
      | .parsed (some n) =>
        let t := s0.updateValue n
        { t with errCount := 0 }
      | _ => { s0 with errCount := s0.errCount + 1 }
    let s2 :=
      if warnAfterErrorCount ≤ s1.errCount then
        let t := s1.updateValue 0
        { t with errCount := t.errCount + 1 }
      else s1
    { s2 with pendingTime := true }

/-- Embedding of `PSUSubEvent::setupRead` (PSUEvent.cpp lines 177-204):
clear `pendingTime`; quiesce and stop if `deleteRequested`; otherwise
initiate the asynchronous read (`pendingRead`). -/
def SubEventSt.setupRead (s : SubEventSt) : SubEventSt :=
  let s0 := { s with pendingTime := false }
  if s0.deleteRequested = true then { s0 with deleteQuiescent := true }
  else { s0 with pendingRead := true }

/-- Embedding of `PSUSubEvent::requestDelete` (PSUEvent.cpp lines 413-422):
set `deleteRequested`; if currently idle, it is immediately quiescent. -/
def SubEventSt.requestDelete (s : SubEventSt) : SubEventSt :=
  let s0 := { s with deleteRequested := true }
  if (s0.pendingTime || s0.pendingRead) = false then
    { s0 with deleteQuiescent := true }
  else s0

/-- Embedding of `PSUSubEvent::isDeleteQuiescent` (PSUEvent.cpp 408-411). -/
def SubEventSt.isDeleteQuiescent (s : SubEventSt) : Bool :=
  s.deleteQuiescent

/-- Reactor events that can involve one sub-event: a `requestDelete` call,
the reschedule timer firing, or the asynchronous read completing. -/
inductive SubEv where
  | reqDelete : SubEv
  | timerFired : SubEv
  | readDone : ReadOutcome → SubEv
deriving DecidableEq

/-- One interleaving step of the single-threaded reactor for a sub-event.
A completion handler can only run while its operation is outstanding
(asio delivers each initiated operation's handler exactly once), so
`timerFired`/`readDone` are enabled only under the matching pending flag. -/
def subStep : SubEv → SubEventSt → Option SubEventSt
  | .reqDelete, s => some s.requestDelete
  | .timerFired, s =>
    if s.pendingTime = true then some s.setupRead else none
  | .readDone r, s =>
    if s.pendingRead = true then some (s.handleResponse r) else none

/-- Lifecycle invariant of a sub-event: at most one operation is in flight
(a read is initiated only after the timer handler ran, and vice versa), and
a quiescent sub-event is idle with deletion requested. -/
def SubInv (s : SubEventSt) : Prop :=
  (s.pendingRead = true → s.pendingTime = false) ∧
  (s.deleteQuiescent = true →
    s.pendingRead = false ∧ s.pendingTime = false ∧ s.deleteRequested = true)

instance (s : SubEventSt) : Decidable (SubInv s) := by
  unfold SubInv
  infer_instance

/-- State of one `PSUCombineEvent`: its map of sub-event vectors. -/
structure CombineEventSt where
  events : List (List SubEventSt)
deriving DecidableEq

/-- Embedding of `PSUCombineEvent::isDeleteQuiescent` (PSUEvent.cpp lines
424-439): quiescent iff every sub-event is. -/
def CombineEventSt.isDeleteQuiescent (c : CombineEventSt) : Bool :=
  c.events.all (fun g => g.all (fun e => e.deleteQuiescent))

/-- Embedding of `PSUCombineEvent::requestDelete` (PSUEvent.cpp lines
441-450). -/
def CombineEventSt.requestDelete (c : CombineEventSt) : CombineEventSt :=
  { events := c.events.map (fun g => g.map SubEventSt.requestDelete) }

/-- Embedding of one trash sweep (HwmonTempSensor.cpp lines 1112-1140 for
sensors, 1142-1170 for events): when the retired list is non-empty and every
member reports quiescent, free all members and clear the list; otherwise
leave the list untouched for a later tick. -/
def sweepTrash (quiescent : τ → Bool) (trash : List τ) : List τ :=
  if trash.isEmpty = true then trash
  else if trash.all quiescent = true then [] else trash

/-- Scheduler-visible state of the PSU daemon's master timer: the two
retired ("trash") lists, the timer's current expiry, and the previous tick's
wall-clock reading, in milliseconds. -/
structure MasterSt (τ ε : Type) where
  trashSensors : List τ
  trashEvents : List ε
  expiry : Int
  prior : Int

/-- Embedding of `finishMasterTimer` (HwmonTempSensor.cpp lines 1080-1231):
sweep both trash lists, then re-anchor the timer: if processing time
(`now - expiry`) exceeds the nominal poll interval, or the tick-to-tick
interval (`now - prior`) exceeds double the nominal value, anchor the next
expiry at `now`; otherwise at `previous expiry + interval` exactly.  The
per-sensor `prepareInput` loop only initiates reads on live sensors and
updates diagnostic counters, so it is not modelled here. -/
def finishMasterTimer (qs : τ → Bool) (qe : ε → Bool) (pollMs now : Int)
    (m : MasterSt τ ε) : MasterSt τ ε :=
  let ts := sweepTrash qs m.trashSensors
  let te := sweepTrash qe m.trashEvents
  let msProcess := now - m.expiry
  let msInterval := now - m.prior
  let expiry2 :=
    if pollMs < msProcess ∨ 2 * pollMs < msInterval then now
    else m.expiry + pollMs
  { trashSensors := ts, trashEvents := te, expiry := expiry2, prior := now }

/-- Embedding of the retirement step of `createSensors` (HwmonTempSensor.cpp
lines 440-453): every sensor of the outgoing generation gets
`requestDelete()` and is moved into the trash list; the active list is then
cleared. -/
def retireSensors (reqDel : τ → τ) (active trash : List τ) :
    List τ × List τ :=
  (([] : List τ), trash ++ active.map reqDel)

/-- Bridge lemma: once the power match exists, the exception-explicit
`readingStateGoodE` returns exactly `readingStateGood`. -/
theorem readingStateGoodE_ok (env : PowerEnv) (rs : PowerState)
    (h : env.matchExists = true) :
    readingStateGoodE env rs = Except.ok (readingStateGood env rs) := by
  cases rs <;>
    simp [readingStateGoodE, readingStateGood, isPowerOn, hasBiosPost, h] <;>
    cases hb : env.biosHasPost <;> cases hp : env.powerStatusOn <;> simp

/-- `requiresUpdate` always fires when the new value is NaN. -/
theorem requiresUpdate_nan_right (hp : ℚ) (l : Dbl) :
    requiresUpdate hp l Dbl.nan = true := by
  cases l <;> rfl

/-- `requiresUpdate` always fires when the cached value is NaN. -/
theorem requiresUpdate_nan_left (hp : ℚ) (r : Dbl) :
    requiresUpdate hp Dbl.nan r = true := by
  cases r <;> rfl

/-- Below the threshold, a failed read while powered only counts. -/
theorem incrementError_not_yet (chk : α → Dbl → α) (cfg : BuildCfg)
    (env : PowerEnv) (s : SensorSt α)
    (hg : readingStateGood env s.readState = true)
    (hlt : s.errCount + 1 < errorThreshold) :
    incrementError chk cfg env s = { s with errCount := s.errCount + 1 } := by
  have h1 : ¬ errorThreshold ≤ s.errCount := by omega
  have h2 : ¬ (s.errCount + 1 = errorThreshold) := by omega
  simp [incrementError, hg, h1, h2]

/-- The failed read that reaches the threshold latches Functional false and
publishes NaN. -/
theorem incrementError_latch (chk : α → Dbl → α) (cfg : BuildCfg)
    (env : PowerEnv) (s : SensorSt α)
    (hg : readingStateGood env s.readState = true)
    (hov : s.overriddenState = false)
    (hsi : s.hasSensorIface = true)
    (hoi : s.hasOperationalIface = true)
    (heq : s.errCount + 1 = errorThreshold) :
    incrementError chk cfg env s =
      { s with errCount := errorThreshold
               functionalProp := false
               value := Dbl.nan
               publishedValue := Dbl.nan
               publishCount := s.publishCount + 1
               alarms := chk s.alarms Dbl.nan
               checkCount := s.checkCount + 1
               internalSet := false } := by
  have h1 : ¬ errorThreshold ≤ s.errCount := by omega
  rcases s with ⟨sett, maxV, minV, val, ov, iset, ht, hyp, rs, ec, f1, f2, f3, pv, av, fn, pc, cc, hk, al⟩
  simp only at hg hov hsi hoi heq h1 ⊢
  subst hov hsi hoi
  simp [incrementError, h1, heq, hg, markFunctional, markFunctionalWith,
    updateValueF, updFuel, updateValueProperty, updateProperty,
    setSensorValue, requiresUpdate_nan_right, Dbl.isNan]

/-- At or beyond the threshold, further failed reads change nothing. -/
theorem incrementError_saturated (chk : α → Dbl → α) (cfg : BuildCfg)
    (env : PowerEnv) (s : SensorSt α)
    (hg : readingStateGood env s.readState = true)
    (hge : errorThreshold ≤ s.errCount) :
    incrementError chk cfg env s = s := by
  simp [incrementError, hg, hge]

/-- Any finite update while powered restores Functional and clears the
error counter. -/
theorem updateValue_finite_restores (chk : α → Dbl → α) (cfg : BuildCfg)
    (env : PowerEnv) (t : SensorSt α) (q : ℚ)
    (hg : readingStateGood env t.readState = true)
    (hov : t.overriddenState = false)
    (hoi : t.hasOperationalIface = true) :
    (updateValue chk cfg env t (Dbl.fin q)).functionalProp = true
    ∧ (updateValue chk cfg env t (Dbl.fin q)).errCount = 0 := by
  rcases t with ⟨sett, maxV, minV, val, ov, iset, ht, hyp, rs, ec, f1, f2, f3, pv, av, fn, pc, cc, hk, al⟩
  simp only at hg hov hoi
  subst hov hoi
  by_cases hru : requiresUpdate hyp val (Dbl.fin q) = true <;>
  by_cases hsi : f1 = true <;>
  by_cases hai : f2 = true <;>
  by_cases hav : av = true <;>
    simp [updateValue, updFuel, updateValueF, markAvailableWith,
      availSetProperty, markFunctionalWith, updateValueProperty,
      updateProperty, setSensorValue, Dbl.isNan, hg, hru, hsi, hai, hav]

/-- Claim C4: with the power gate good, exactly `errorThreshold` (5)
consecutive `incrementError()` calls flip Functional to false exactly once
(it stays true through the first four, flips on the fifth), the counter
saturates at the threshold so further failures cause no additional
transition (the state is completely unchanged from then on), and a single
subsequent `updateValue` with a finite value restores Functional and resets
`errCount` to zero. -/
theorem c4_error_latching (chk : α → Dbl → α) (cfg : BuildCfg)
    (env : PowerEnv) (s : SensorSt α)
    (hg : readingStateGood env s.readState = true)
    (hov : s.overriddenState = false)
    (hsi : s.hasSensorIface = true)
    (hoi : s.hasOperationalIface = true)
    (h0 : s.errCount = 0)
    (hfn : s.functionalProp = true) :
    (∀ k, k ≤ 4 →
      ((incrementError chk cfg env)^[k] s).functionalProp = true
      ∧ ((incrementError chk cfg env)^[k] s).errCount = k)
    ∧ ((incrementError chk cfg env)^[errorThreshold] s).functionalProp = false
    ∧ ((incrementError chk cfg env)^[errorThreshold] s).errCount
        = errorThreshold
    ∧ (∀ m, (incrementError chk cfg env)^[errorThreshold + m] s
        = (incrementError chk cfg env)^[errorThreshold] s)
    ∧ ∀ q : ℚ,
      (updateValue chk cfg env
          ((incrementError chk cfg env)^[errorThreshold] s)
          (Dbl.fin q)).functionalProp = true
      ∧ (updateValue chk cfg env
          ((incrementError chk cfg env)^[errorThreshold] s)
          (Dbl.fin q)).errCount = 0 := by
  have e0 : (incrementError chk cfg env)^[0] s = { s with errCount := 0 } := by
    rcases s with ⟨sett, maxV, minV, val, ov, iset, ht, hyp, rs, ec, f1, f2, f3, pv, av, fn, pc, cc, hk, al⟩
    simp only at h0
    subst h0
    rfl
  have estep : ∀ k : ℕ, k + 1 < errorThreshold →
      (incrementError chk cfg env)^[k] s = { s with errCount := k } →
      (incrementError chk cfg env)^[k + 1] s
        = { s with errCount := k + 1 } := by
    intro k hk he
    rw [Function.iterate_succ_apply', he,
      incrementError_not_yet chk cfg env _ (by simpa using hg)
        (by simpa using hk)]
  have e1 := estep 0 (by decide) e0
  have e2 := estep 1 (by decide) e1
  have e3 := estep 2 (by decide) e2
  have e4 := estep 3 (by decide) e3
  have e5 : (incrementError chk cfg env)^[errorThreshold] s =
      { s with errCount := errorThreshold
               functionalProp := false
               value := Dbl.nan
               publishedValue := Dbl.nan
               publishCount := s.publishCount + 1
               alarms := chk s.alarms Dbl.nan
               checkCount := s.checkCount + 1
               internalSet := false } := by
    rw [show errorThreshold = 4 + 1 from rfl, Function.iterate_succ_apply',
      e4, incrementError_latch chk cfg env _ (by simpa using hg)
        (by simpa using hov) (by simpa using hsi) (by simpa using hoi)
        (by rfl)]
    rfl
  refine ⟨?_, ?_, ?_, ?_, ?_⟩
  · intro k hk
    interval_cases k
    · rw [e0]; exact ⟨hfn, rfl⟩
    · rw [e1]; exact ⟨hfn, rfl⟩
    · rw [e2]; exact ⟨hfn, rfl⟩
    · rw [e3]; exact ⟨hfn, rfl⟩
    · rw [e4]; exact ⟨hfn, rfl⟩
  · rw [e5]
  · rw [e5]
  · intro m
    induction m with
    | zero => rfl
    | succ n ih =>
      rw [show errorThreshold + (n + 1) = (errorThreshold + n) + 1 from rfl,
        Function.iterate_succ_apply', ih, e5,
        incrementError_saturated chk cfg env _ (by simpa using hg)
          (by simp)]
  · intro q
    rw [e5]
    exact updateValue_finite_restores chk cfg env _ q (by simpa using hg)
      (by simpa using hov) (by simpa using hoi)

/-- `PSUSubEvent::updateValue` never touches `deleteRequested`. -/
theorem subUpdateValue_dr (s : SubEventSt) (n : Int) :
    (s.updateValue n).deleteRequested = s.deleteRequested := by
  rcases s with ⟨dr, dq, pr, pt, val, ec, path, gen, asserts, combine, ast, fn⟩
  simp only [SubEventSt.updateValue]
  split_ifs <;> simp

/-- `PSUSubEvent::updateValue` never touches `deleteQuiescent`. -/
theorem subUpdateValue_dq (s : SubEventSt) (n : Int) :
    (s.updateValue n).deleteQuiescent = s.deleteQuiescent := by
  rcases s with ⟨dr, dq, pr, pt, val, ec, path, gen, asserts, combine, ast, fn⟩
  simp only [SubEventSt.updateValue]
  split_ifs <;> simp

/-- `PSUSubEvent::updateValue` never touches `pendingRead`. -/
theorem subUpdateValue_pr (s : SubEventSt) (n : Int) :
    (s.updateValue n).pendingRead = s.pendingRead := by
  rcases s with ⟨dr, dq, pr, pt, val, ec, path, gen, asserts, combine, ast, fn⟩
  simp only [SubEventSt.updateValue]
  split_ifs <;> simp

/-- `PSUSubEvent::updateValue` never touches `pendingTime`. -/
theorem subUpdateValue_pt (s : SubEventSt) (n : Int) :
    (s.updateValue n).pendingTime = s.pendingTime := by
  rcases s with ⟨dr, dq, pr, pt, val, ec, path, gen, asserts, combine, ast, fn⟩
  simp only [SubEventSt.updateValue]
  split_ifs <;> simp

/-- With deletion requested, a read completion just quiesces. -/
theorem handleResponse_requested (s : SubEventSt) (r : ReadOutcome)
    (hdr : s.deleteRequested = true) :
    s.handleResponse r = { s with pendingRead := false
                                  deleteQuiescent := true } := by
  simp [SubEventSt.handleResponse, hdr]

/-- Without deletion requested, a read completion clears `pendingRead` and
leaves the deletion flags alone. -/
theorem handleResponse_not_requested (s : SubEventSt) (r : ReadOutcome)
    (hdr : s.deleteRequested = false) :
    (s.handleResponse r).deleteRequested = false
    ∧ (s.handleResponse r).deleteQuiescent = s.deleteQuiescent
    ∧ (s.handleResponse r).pendingRead = false := by
  simp only [SubEventSt.handleResponse]
  rcases r with _ | _ | _ | p
  · simp [hdr]
  · simp [hdr]
  · simp only [hdr]
    split_ifs <;>
      simp_all [subUpdateValue_dr, subUpdateValue_dq, subUpdateValue_pr]
  · rcases p with _ | n <;>
    · simp only [hdr]
      split_ifs <;>
        simp_all [subUpdateValue_dr, subUpdateValue_dq, subUpdateValue_pr]

/-- With deletion requested, a timer completion just quiesces. -/
theorem setupRead_requested (s : SubEventSt)
    (hdr : s.deleteRequested = true) :
    s.setupRead = { s with pendingTime := false
                           deleteQuiescent := true } := by
  simp [SubEventSt.setupRead, hdr]

/-- Without deletion requested, a timer completion initiates the next read. -/
theorem setupRead_not_requested (s : SubEventSt)
    (hdr : s.deleteRequested = false) :
    s.setupRead = { s with pendingTime := false
                           pendingRead := true } := by
  simp [SubEventSt.setupRead, hdr]

/-- `requestDelete` on an idle sub-event quiesces immediately. -/
theorem requestDelete_idle (s : SubEventSt)
    (h : (s.pendingTime || s.pendingRead) = false) :
    s.requestDelete = { s with deleteRequested := true
                               deleteQuiescent := true } := by
  simp only [Bool.or_eq_false_iff] at h
  simp [SubEventSt.requestDelete, h.1, h.2]

/-- `requestDelete` on a busy sub-event only records the request. -/
theorem requestDelete_busy (s : SubEventSt)
    (h : (s.pendingTime || s.pendingRead) = true) :
    s.requestDelete = { s with deleteRequested := true } := by
  rcases Bool.or_eq_true_iff.mp h with h1 | h1 <;>
    simp [SubEventSt.requestDelete, h1]

/-- Claim C1: for a retiring `PSUSubEvent` under the lifecycle invariant,
`requestDelete()` sets `deleteRequested = true` and, when neither a read nor
a timer is pending, immediately sets `deleteQuiescent = true`; under any
interleaving of reactor events, `deleteQuiescent` never reverts to false, a
quiescent sub-event is frozen (no state mutation, no new read or timer is
initiated), every enabled step preserves the invariant, and after
`requestDelete()` the completion of an in-flight read or timer makes the
sub-event quiescent — so `deleteQuiescent` becomes true exactly once. -/
theorem c1_quiescence (s : SubEventSt) (hInv : SubInv s) :
    s.requestDelete.deleteRequested = true
    ∧ (s.pendingRead = false → s.pendingTime = false →
        s.requestDelete.deleteQuiescent = true)
    ∧ (∀ e t, subStep e s = some t → s.deleteQuiescent = true →
        t.deleteQuiescent = true)
    ∧ (∀ e t, subStep e s = some t → s.deleteQuiescent = true → t = s)
    ∧ (∀ e t, subStep e s = some t → SubInv t)
    ∧ (∀ r t, subStep (SubEv.readDone r) s.requestDelete = some t →
        t.deleteQuiescent = true)
    ∧ (∀ t, subStep SubEv.timerFired s.requestDelete = some t →
        t.deleteQuiescent = true) := by
  obtain ⟨hInv1, hInv2⟩ := hInv
  have hreq : ∀ u : SubEventSt, u.requestDelete.deleteRequested = true := by
    intro u
    by_cases h : (u.pendingTime || u.pendingRead) = false
    · rw [requestDelete_idle u h]
    · rw [requestDelete_busy u (by revert h; cases hu : (u.pendingTime || u.pendingRead) <;> simp)]
  refine ⟨hreq s, ?_, ?_, ?_, ?_, ?_, ?_⟩
  · intro hpr hpt
    rw [requestDelete_idle s (by simp [hpr, hpt])]
  · intro e t hstep hq
    obtain ⟨hpr, hpt, hdr⟩ := hInv2 hq
    cases e with
    | reqDelete =>
      simp only [subStep, Option.some_inj] at hstep
      subst hstep
      rw [requestDelete_idle s (by simp [hpr, hpt])]
    | timerFired => simp [subStep, hpt] at hstep
    | readDone r => simp [subStep, hpr] at hstep
  · intro e t hstep hq
    obtain ⟨hpr, hpt, hdr⟩ := hInv2 hq
    cases e with
    | reqDelete =>
      simp only [subStep, Option.some_inj] at hstep
      subst hstep
      rw [requestDelete_idle s (by simp [hpr, hpt])]
      rcases s with ⟨dr, dq, pr, pt, val, ec, path, gen, asserts, combine, ast, fn⟩
      simp only at hdr hq
      subst hdr hq
      rfl
    | timerFired => simp [subStep, hpt] at hstep
    | readDone r => simp [subStep, hpr] at hstep
  · intro e t hstep
    cases e with
    | reqDelete =>
      simp only [subStep, Option.some_inj] at hstep
      subst hstep
      by_cases hb : (s.pendingTime || s.pendingRead) = false
      · rw [requestDelete_idle s hb]
        simp only [Bool.or_eq_false_iff] at hb
        exact ⟨by simp [hb.2], by simp [hb.1, hb.2]⟩
      · rw [requestDelete_busy s (by revert hb; cases hs : (s.pendingTime || s.pendingRead) <;> simp)]
        constructor
        · intro h
          simp only at h
          simpa using hInv1 h
        · intro h
          simp only at h
          obtain ⟨h1, h2, _⟩ := hInv2 h
          simp [h1, h2] at hb
    | timerFired =>
      rcases hpt : s.pendingTime with _ | _
      · simp [subStep, hpt] at hstep
      · simp only [subStep, hpt, if_pos, Option.some_inj] at hstep
        subst hstep
        have hpr : s.pendingRead = false := by
          rcases hc : s.pendingRead with _ | _
          · rfl
          · exact absurd (hInv1 hc) (by simp [hpt])
        by_cases hdr : s.deleteRequested = true
        · rw [setupRead_requested s hdr]
          exact ⟨by simp [hpr], by simp [hpr, hdr]⟩
        · simp only [Bool.not_eq_true] at hdr
          have hdq : s.deleteQuiescent = false := by
            rcases hc : s.deleteQuiescent with _ | _
            · rfl
            · exact absurd (hInv2 hc).2.2 (by simp [hdr])
          rw [setupRead_not_requested s hdr]
          exact ⟨by simp, by simp [hdq]⟩
    | readDone r =>
      rcases hpr : s.pendingRead with _ | _
      · simp [subStep, hpr] at hstep
      · simp only [subStep, hpr, if_pos, Option.some_inj] at hstep
        subst hstep
        have hpt : s.pendingTime = false := hInv1 hpr
        by_cases hdr : s.deleteRequested = true
        · rw [handleResponse_requested s r hdr]
          exact ⟨by simp, by simp [hpt, hdr]⟩
        · simp only [Bool.not_eq_true] at hdr
          have hdq : s.deleteQuiescent = false := by
            rcases hc : s.deleteQuiescent with _ | _
            · rfl
            · exact absurd (hInv2 hc).2.2 (by simp [hdr])
          obtain ⟨f1, f2, f3⟩ := handleResponse_not_requested s r hdr
          constructor
          · intro h
            rw [f3] at h
            cases h
          · intro h
            rw [f2, hdq] at h
            cases h
  · intro r t hstep
    rcases hpr : s.pendingRead with _ | _
    · have hpr2 : s.requestDelete.pendingRead = false := by
        by_cases hb : (s.pendingTime || s.pendingRead) = false
        · rw [requestDelete_idle s hb]; simpa using hpr
        · rw [requestDelete_busy s (by revert hb; cases hs : (s.pendingTime || s.pendingRead) <;> simp)]
          simpa using hpr
      simp [subStep, hpr2] at hstep
    · have hb : (s.pendingTime || s.pendingRead) = true := by simp [hpr]
      rw [requestDelete_busy s hb] at hstep
      simp only [subStep] at hstep
      rw [show ({ s with deleteRequested := true } : SubEventSt).pendingRead
          = s.pendingRead from rfl, hpr] at hstep
      simp only [if_pos, Option.some_inj] at hstep
      subst hstep
      rw [handleResponse_requested _ r (by rfl)]
  · intro t hstep
    rcases hpt : s.pendingTime with _ | _
    · have hpt2 : s.requestDelete.pendingTime = false := by
        by_cases hb : (s.pendingTime || s.pendingRead) = false
        · rw [requestDelete_idle s hb]; simpa using hpt
        · rw [requestDelete_busy s (by revert hb; cases hs : (s.pendingTime || s.pendingRead) <;> simp)]
          simpa using hpt
      simp [subStep, hpt2] at hstep
    · have hb : (s.pendingTime || s.pendingRead) = true := by simp [hpt]
      rw [requestDelete_busy s hb] at hstep
      simp only [subStep] at hstep
      rw [show ({ s with deleteRequested := true } : SubEventSt).pendingTime
          = s.pendingTime from rfl, hpt] at hstep
      simp only [if_pos, Option.some_inj] at hstep
      subst hstep
      rw [setupRead_requested _ (by rfl)]

/-- Claim C2: on every master-timer tick `finishMasterTimer` sweeps both
retired (trash) lists with `sweepTrash`; a retired list is destroyed
(emptied) on that tick iff every member reports `deleteQuiescent`, and if
any member is not yet quiescent the list is left entirely untouched for a
later tick — in particular a retired sub-event with an outstanding read or
timer is never freed. -/
theorem c2_trash_sweep (qs : τ → Bool) (qe : ε → Bool) (pollMs now : Int)
    (m : MasterSt τ ε) :
    (finishMasterTimer qs qe pollMs now m).trashSensors
        = sweepTrash qs m.trashSensors
    ∧ (finishMasterTimer qs qe pollMs now m).trashEvents
        = sweepTrash qe m.trashEvents
    ∧ (sweepTrash qs m.trashSensors = [] ↔ m.trashSensors.all qs = true)
    ∧ (∀ x ∈ m.trashSensors, qs x = false →
        sweepTrash qs m.trashSensors = m.trashSensors)
    ∧ (∀ l : List SubEventSt, (∀ u ∈ l, SubInv u) →
        ∀ u ∈ l, (u.pendingRead || u.pendingTime) = true →
        sweepTrash SubEventSt.isDeleteQuiescent l = l) := by
  refine ⟨rfl, rfl, ?_, ?_, ?_⟩
  · unfold sweepTrash
    rcases hl : m.trashSensors with _ | ⟨x, xs⟩
    · simp
    · simp only [List.isEmpty_cons]
      by_cases hall : (x :: xs).all qs = true
      · simp [hall]
      · simp [hall]
  · intro x hx hqx
    unfold sweepTrash
    have hne : m.trashSensors.isEmpty = false := by
      rcases hl : m.trashSensors with _ | _
      · rw [hl] at hx; cases hx
      · rfl
    have hall : m.trashSensors.all qs = false := by
      rcases hall2 : m.trashSensors.all qs with _ | _
      · rfl
      · have := List.all_eq_true.mp hall2 x hx
        rw [hqx] at this; cases this
    simp [hne, hall]
  · intro l hinv u hu hpend
    have hq : u.isDeleteQuiescent = false := by
      unfold SubEventSt.isDeleteQuiescent
      rcases hc : u.deleteQuiescent with _ | _
      · rfl
      · obtain ⟨h1, h2, _⟩ := (hinv u hu).2 hc
        rw [h1, h2] at hpend
        cases hpend
    unfold sweepTrash
    have hne : l.isEmpty = false := by
      rcases hl : l with _ | _
      · rw [hl] at hu; cases hu
      · rfl
    have hall : l.all SubEventSt.isDeleteQuiescent = false := by
      rcases hall2 : l.all SubEventSt.isDeleteQuiescent with _ | _
      · rfl
      · have := List.all_eq_true.mp hall2 u hu
        rw [hq] at this; cases this
    simp [hne, hall]

/-- Claim C6: on a master-timer tick, if the processing time exceeds the
nominal poll interval or the tick-to-tick interval exceeds double the
nominal interval, the next deadline is re-anchored to the current time;
otherwise it is exactly the previous deadline plus the nominal interval.
In either case the new deadline is never behind the current time, so the
schedule cannot fall unboundedly behind under sustained overload. -/
theorem c6_master_timer_drift (qs : τ → Bool) (qe : ε → Bool)
    (pollMs now : Int) (m : MasterSt τ ε) :
    ((pollMs < now - m.expiry ∨ 2 * pollMs < now - m.prior) →
      (finishMasterTimer qs qe pollMs now m).expiry = now)
    ∧ (¬(pollMs < now - m.expiry ∨ 2 * pollMs < now - m.prior) →
      (finishMasterTimer qs qe pollMs now m).expiry = m.expiry + pollMs)
    ∧ now ≤ (finishMasterTimer qs qe pollMs now m).expiry
    ∧ (finishMasterTimer qs qe pollMs now m).prior = now := by
  refine ⟨?_, ?_, ?_, rfl⟩
  · intro h
    show (if pollMs < now - m.expiry ∨ 2 * pollMs < now - m.prior then now
      else m.expiry + pollMs) = now
    rw [if_pos h]
  · intro h
    show (if pollMs < now - m.expiry ∨ 2 * pollMs < now - m.prior then now
      else m.expiry + pollMs) = m.expiry + pollMs
    rw [if_neg h]
  · show now ≤ (if pollMs < now - m.expiry ∨ 2 * pollMs < now - m.prior
      then now else m.expiry + pollMs)
    by_cases h : pollMs < now - m.expiry ∨ 2 * pollMs < now - m.prior
    · rw [if_pos h]
    · rw [if_neg h]
      push_neg at h
      linarith [h.1]

/-- Claim C7 counterexample: for the range [0, 100] the auto-derived
trigger hysteresis is 1 while ten times the publish hysteresis is 0.1, so
the publish hysteresis is not ten times tighter than the trigger
hysteresis as claimed (it is one hundred times tighter). -/
theorem c7_ratio_counterexample :
    ¬((SensorSt.make false 100 0 PowerState.always ()).hysteresisTrigger
      = 10 * (SensorSt.make false 100 0 PowerState.always
        ()).hysteresisPublish) := by
  norm_num [SensorSt.make]

/-- Claim C7 (amended): for every constructed sensor the auto-derived
trigger hysteresis equals 1% of (maxValue − minValue), the publish
hysteresis equals 0.01% of (maxValue − minValue), and the publish
hysteresis is one hundred times (not ten times) tighter than the trigger
hysteresis. -/
theorem c7_hysteresis_bands (isSettable : Bool) (maxV minV : ℚ)
    (rs : PowerState) (a0 : α) :
    (SensorSt.make isSettable maxV minV rs a0).hysteresisTrigger
        = (maxV - minV) * (1 / 100)
    ∧ (SensorSt.make isSettable maxV minV rs a0).hysteresisPublish
        = (maxV - minV) * (1 / 10000)
    ∧ (SensorSt.make isSettable maxV minV rs a0).hysteresisTrigger
        = 100 * (SensorSt.make isSettable maxV minV rs a0).hysteresisPublish
    := by
  refine ⟨rfl, rfl, ?_⟩
  show (maxV - minV) * (1 / 100) = 100 * ((maxV - minV) * (1 / 10000))
  ring

/-- Claim C8: before the power match subscription exists, a sensor in
PowerOn or BiosPost mode calling `readingStateGood()` fails closed: the
call throws (models `std::runtime_error`) and in particular never returns —
so it never reports the reading state as good. -/
theorem c8_power_gate_fails_closed (env : PowerEnv) (rs : PowerState)
    (hm : env.matchExists = false)
    (hrs : rs = PowerState.on ∨ rs = PowerState.biosPost) :
    readingStateGoodE env rs = Except.error ()
    ∧ ∀ b, readingStateGoodE env rs ≠ Except.ok b := by
  have herr : readingStateGoodE env rs = Except.error () := by
    rcases hrs with h | h <;> subst h <;>
      simp [readingStateGoodE, isPowerOn, hasBiosPost, hm]
  exact ⟨herr, fun b hc => by rw [herr] at hc; cases hc⟩

/-- Claim C9: while the power gate reports the reading state not good,
`incrementError()` only marks the sensor unavailable: Functional is
untouched, `errCount` is never incremented toward the latch (it is reset to
zero exactly when the availability interface exists, and the whole state is
untouched when it does not), Available is forced false when the interface
exists, and no threshold evaluation happens. -/
theorem c9_gated_incrementError (chk : α → Dbl → α) (cfg : BuildCfg)
    (env : PowerEnv) (s : SensorSt α)
    (hg : readingStateGood env s.readState = false) :
    (incrementError chk cfg env s).functionalProp = s.functionalProp
    ∧ (incrementError chk cfg env s).errCount ≤ s.errCount
    ∧ (s.hasAvailableIface = true →
        (incrementError chk cfg env s).errCount = 0
        ∧ (incrementError chk cfg env s).availableProp = false)
    ∧ (s.hasAvailableIface = false → incrementError chk cfg env s = s)
    ∧ (incrementError chk cfg env s).checkCount = s.checkCount := by
  rcases s with ⟨sett, maxV, minV, val, ov, iset, ht, hyp, rs, ec, f1, f2, f3, pv, av, fn, pc, cc, hk, al⟩
  simp only at hg
  by_cases hai : f2 = true <;>
  by_cases hav : av = true <;>
  by_cases hov : ov = true <;>
  by_cases hsi : f1 = true <;>
    simp [incrementError, markAvailable, markAvailableWith, availSetProperty,
      updateValueF, updFuel, updateValueProperty, updateProperty,
      setSensorValue, requiresUpdate_nan_right, hg, hai, hav, hov, hsi]

/-- Claim C10: an external (non-internal) write to the Value property on a
non-settable sensor, with the insecure-override build flag off and
manufacturing mode off, returns `-EACCES` (-13) and leaves the entire
sensor state — value, overriddenState, and all alarm state — unchanged; an
accepted external write returns 1, pins the value (`overriddenState =
true`), stores it, and immediately evaluates thresholds. -/
theorem c10_external_set (chk : α → Dbl → α) (cfg : BuildCfg)
    (s : SensorSt α) (v : Dbl) :
    (s.internalSet = false → cfg.insecureSensorOverride = false →
      s.isSensorSettable = false → cfg.manufacturingMode = false →
      setSensorValue chk cfg s v = (-13, s))
    ∧ (s.internalSet = false →
      ¬(cfg.insecureSensorOverride = false ∧ s.isSensorSettable = false ∧
          cfg.manufacturingMode = false) →
      (setSensorValue chk cfg s v).1 = 1
      ∧ (setSensorValue chk cfg s v).2.overriddenState = true
      ∧ (setSensorValue chk cfg s v).2.value = v
      ∧ (setSensorValue chk cfg s v).2.publishedValue = v
      ∧ (setSensorValue chk cfg s v).2.checkCount = s.checkCount + 1
      ∧ (setSensorValue chk cfg s v).2.alarms = chk s.alarms v) := by
  constructor
  · intro h1 h2 h3 h4
    simp [setSensorValue, h1, h2, h3, h4]
  · intro h1 h2
    simp [setSensorValue, h1, h2]

/-- A small-delta finite update publishes nothing and preserves the fields
that govern future updates. -/
theorem updateValue_no_publish (chk : α → Dbl → α) (cfg : BuildCfg)
    (env : PowerEnv) (t : SensorSt α) (b : ℚ)
    (hov : t.overriddenState = false)
    (hg : readingStateGood env t.readState = true)
    (hru : requiresUpdate t.hysteresisPublish t.value (Dbl.fin b) = false) :
    (updateValue chk cfg env t (Dbl.fin b)).publishCount = t.publishCount
    ∧ (updateValue chk cfg env t (Dbl.fin b)).value = t.value
    ∧ (updateValue chk cfg env t (Dbl.fin b)).overriddenState = false
    ∧ (updateValue chk cfg env t (Dbl.fin b)).readState = t.readState
    ∧ (updateValue chk cfg env t (Dbl.fin b)).hysteresisPublish
        = t.hysteresisPublish := by
  rcases t with ⟨sett, maxV, minV, val, ov, iset, ht, hyp, rs, ec, f1, f2, f3, pv, av, fn, pc, cc, hk, al⟩
  simp only at hov hg hru
  subst hov
  by_cases hai : f2 = true <;>
  by_cases hav : av = true <;>
  by_cases hoi : f3 = true <;>
    simp [updateValue, updFuel, updateValueF, markAvailableWith,
      availSetProperty, markFunctionalWith, updateValueProperty,
      updateProperty, setSensorValue, Dbl.isNan, hg, hru, hai, hav, hoi]

/-- A powered, non-overridden update publishes exactly when
`requiresUpdate` says so. -/
theorem updateValue_publishCount (chk : α → Dbl → α) (cfg : BuildCfg)
    (env : PowerEnv) (s : SensorSt α) (v : Dbl)
    (hov : s.overriddenState = false)
    (hg : readingStateGood env s.readState = true)
    (hsi : s.hasSensorIface = true) :
    (updateValue chk cfg env s v).publishCount
      = (if requiresUpdate s.hysteresisPublish s.value v = true
          then s.publishCount + 1 else s.publishCount) := by
  rcases s with ⟨sett, maxV, minV, val, ov, iset, ht, hyp, rs, ec, f1, f2, f3, pv, av, fn, pc, cc, hk, al⟩
  simp only at hov hg hsi
  subst hov hsi
  by_cases hru : requiresUpdate hyp val v = true <;>
  rcases v with _ | q <;>
  by_cases hai : f2 = true <;>
  by_cases hav : av = true <;>
  by_cases hoi : f3 = true <;>
    simp [updateValue, updFuel, updateValueF, markAvailableWith,
      availSetProperty, markFunctionalWith, updateValueProperty,
      updateProperty, setSensorValue, Dbl.isNan, hg, hru, hai, hav, hoi]

/-- Folding a run of small-delta finite updates over a sensor publishes
nothing and leaves the cached value alone. -/
theorem updateValue_foldl_small (chk : α → Dbl → α) (cfg : BuildCfg)
    (env : PowerEnv) (vs : List ℚ) :
    ∀ (t : SensorSt α) (a : ℚ), t.overriddenState = false →
      readingStateGood env t.readState = true →
      t.value = Dbl.fin a →
      (∀ b ∈ vs, |b - a| < t.hysteresisPublish) →
      (vs.foldl (fun u b => updateValue chk cfg env u (Dbl.fin b))
          t).publishCount = t.publishCount
      ∧ (vs.foldl (fun u b => updateValue chk cfg env u (Dbl.fin b))
          t).value = t.value := by
  induction vs with
  | nil => intro t a _ _ _ _; exact ⟨rfl, rfl⟩
  | cons b rest ih =>
    intro t a hov hg hv hsmall
    have hru : requiresUpdate t.hysteresisPublish t.value (Dbl.fin b)
        = false := by
      rw [hv]
      simp only [requiresUpdate, decide_eq_false_iff_not, not_lt]
      rw [abs_sub_comm]
      exact (hsmall b (List.mem_cons_self b rest)).le
    obtain ⟨p1, p2, p3, p4, p5⟩ :=
      updateValue_no_publish chk cfg env t b hov hg hru
    have hrest := ih (updateValue chk cfg env t (Dbl.fin b)) a p3
      (by rw [p4]; exact hg) (by rw [p2]; exact hv)
      (by
        intro c hc
        rw [p5]
        exact hsmall c (List.mem_cons_of_mem b hc))
    simp only [List.foldl_cons]
    exact ⟨hrest.1.trans p1, hrest.2.trans p2⟩

/-- Claim C5: for a powered, non-overridden sensor, `updateValue` attempts
the external "Value" write exactly when `requiresUpdate` holds, and
`requiresUpdate` holds iff either value is NaN or the absolute difference
exceeds the publish hysteresis; consequently a run of finite updates each
differing from the published value by less than the publish hysteresis
causes no external write at all and leaves the cached value unchanged. -/
theorem c5_publish_hysteresis (chk : α → Dbl → α) (cfg : BuildCfg)
    (env : PowerEnv) (s : SensorSt α) (v : Dbl)
    (hov : s.overriddenState = false)
    (hg : readingStateGood env s.readState = true)
    (hsi : s.hasSensorIface = true) :
    (updateValue chk cfg env s v).publishCount
      = (if requiresUpdate s.hysteresisPublish s.value v = true
          then s.publishCount + 1 else s.publishCount)
    ∧ (requiresUpdate s.hysteresisPublish s.value v = true ↔
        s.value.isNan = true ∨ v.isNan = true ∨
        ∃ a b, s.value = Dbl.fin a ∧ v = Dbl.fin b ∧
          |a - b| > s.hysteresisPublish)
    ∧ ∀ (a : ℚ) (vs : List ℚ), s.value = Dbl.fin a →
        (∀ b ∈ vs, |b - a| < s.hysteresisPublish) →
        (vs.foldl (fun u b => updateValue chk cfg env u (Dbl.fin b))
            s).publishCount = s.publishCount
        ∧ (vs.foldl (fun u b => updateValue chk cfg env u (Dbl.fin b))
            s).value = Dbl.fin a := by
  refine ⟨updateValue_publishCount chk cfg env s v hov hg hsi, ?_, ?_⟩
  · rcases hval : s.value with _ | a <;> rcases v with _ | b <;>
      simp [requiresUpdate, Dbl.isNan]
  · intro a vs hv hsmall
    obtain ⟨h1, h2⟩ :=
      updateValue_foldl_small chk cfg env vs s a hov hg hv hsmall
    exact ⟨h1, h2.trans hv⟩

/-- Claim C3: for a non-overridden sensor with `readState = PowerOn` while
external power is off, `updateValue` of any finite value publishes NaN as
the external value, forces the cached value to NaN, sets Available false,
and returns without evaluating thresholds (alarm state and the
checkThresholds counter are untouched); once power is back, `updateValue`
of a finite value publishes that value and restores Available and
Functional. -/
theorem c3_power_gated_updateValue (chk : α → Dbl → α) (cfg : BuildCfg)
    (env : PowerEnv) (s : SensorSt α) (q q2 : ℚ)
    (hov : s.overriddenState = false)
    (hrs : s.readState = PowerState.on)
    (hp : env.powerStatusOn = false)
    (hsi : s.hasSensorIface = true)
    (hai : s.hasAvailableIface = true)
    (hoi : s.hasOperationalIface = true) :
    (updateValue chk cfg env s (Dbl.fin q)).value = Dbl.nan
    ∧ (updateValue chk cfg env s (Dbl.fin q)).publishedValue = Dbl.nan
    ∧ (updateValue chk cfg env s (Dbl.fin q)).availableProp = false
    ∧ (updateValue chk cfg env s (Dbl.fin q)).checkCount = s.checkCount
    ∧ (updateValue chk cfg env s (Dbl.fin q)).alarms = s.alarms
    ∧ (updateValue chk cfg
          { env with powerStatusOn := true }
          (updateValue chk cfg env s (Dbl.fin q)) (Dbl.fin q2)).value
        = Dbl.fin q2
    ∧ (updateValue chk cfg
          { env with powerStatusOn := true }
          (updateValue chk cfg env s (Dbl.fin q)) (Dbl.fin q2)).publishedValue
        = Dbl.fin q2
    ∧ (updateValue chk cfg
          { env with powerStatusOn := true }
          (updateValue chk cfg env s (Dbl.fin q)) (Dbl.fin q2)).availableProp
        = true
    ∧ (updateValue chk cfg
          { env with powerStatusOn := true }
          (updateValue chk cfg env s (Dbl.fin q)) (Dbl.fin q2)).functionalProp
        = true := by
  rcases s with ⟨sett, maxV, minV, val, ov, iset, ht, hyp, rs, ec, f1, f2, f3, pv, av, fn, pc, cc, hk, al⟩
  rcases env with ⟨me, pon, bhp⟩
  simp only at hov hrs hp hsi hai hoi
  subst hov hrs hp hsi hai hoi
  by_cases hav : av = true
  · subst hav
    simp [updateValue, updFuel, updateValueF, markAvailableWith,
      availSetProperty, markFunctionalWith, updateValueProperty,
      updateProperty, setSensorValue, requiresUpdate_nan_right,
      requiresUpdate_nan_left, readingStateGood, Dbl.isNan]
  · simp only [Bool.not_eq_true] at hav
    subst hav
    simp [updateValue, updFuel, updateValueF, markAvailableWith,
      availSetProperty, markFunctionalWith, updateValueProperty,
      updateProperty, setSensorValue, requiresUpdate_nan_right,
      requiresUpdate_nan_left, readingStateGood, Dbl.isNan]

/-- Witness for C1 at a concrete sub-event with a read in flight. -/
theorem c1_quiescence_witness :
    SubInv (SubEventSt.mk false false true false 0 0 "" "" [] [] false true)
    ∧ ((SubEventSt.mk false false true false 0 0 "" "" [] [] false
        true).requestDelete.handleResponse
        ReadOutcome.aborted).deleteQuiescent = true :=
  ⟨by decide,
    (c1_quiescence
      (SubEventSt.mk false false true false 0 0 "" "" [] [] false true)
      (by decide)).2.2.2.2.2.1 ReadOutcome.aborted
      ((SubEventSt.mk false false true false 0 0 "" "" [] [] false
        true).requestDelete.handleResponse ReadOutcome.aborted) (by decide)⟩

/-- Witness for C2: a fully quiescent trash list is freed on the tick while
a non-quiescent one is kept. -/
theorem c2_trash_sweep_witness :
    (finishMasterTimer (fun b : Bool => b) (fun b : Bool => b) 1000 100
      (MasterSt.mk [true] [false] 0 0)).trashSensors = []
    ∧ (finishMasterTimer (fun b : Bool => b) (fun b : Bool => b) 1000 100
      (MasterSt.mk [true] [false] 0 0)).trashEvents = [false] :=
  ⟨(c2_trash_sweep (fun b : Bool => b) (fun b : Bool => b) 1000 100
      (MasterSt.mk [true] [false] 0 0)).1.trans (by decide),
   (c2_trash_sweep (fun b : Bool => b) (fun b : Bool => b) 1000 100
      (MasterSt.mk [true] [false] 0 0)).2.1.trans (by decide)⟩

/-- Witness for C3 at a PowerOn sensor with power off, then restored. -/
theorem c3_power_gated_updateValue_witness :
    readingStateGood (PowerEnv.mk true false true) PowerState.on = false
    ∧ (updateValue (fun (a : Unit) _ => a) (BuildCfg.mk false false)
        (PowerEnv.mk true false true)
        (SensorSt.make false 100 0 PowerState.on ()) (Dbl.fin 50)).value
      = Dbl.nan
    ∧ (updateValue (fun (a : Unit) _ => a) (BuildCfg.mk false false)
        (PowerEnv.mk true false true)
        (SensorSt.make false 100 0 PowerState.on ())
        (Dbl.fin 50)).availableProp = false
    ∧ (updateValue (fun (a : Unit) _ => a) (BuildCfg.mk false false)
        (PowerEnv.mk true true true)
        (updateValue (fun (a : Unit) _ => a) (BuildCfg.mk false false)
          (PowerEnv.mk true false true)
          (SensorSt.make false 100 0 PowerState.on ()) (Dbl.fin 50))
        (Dbl.fin 60)).value = Dbl.fin 60 := by
  have h := c3_power_gated_updateValue (fun (a : Unit) _ => a)
    (BuildCfg.mk false false) (PowerEnv.mk true false true)
    (SensorSt.make false 100 0 PowerState.on ()) 50 60
    rfl rfl rfl rfl rfl rfl
  exact ⟨by decide, h.1, h.2.2.1, h.2.2.2.2.2.1⟩

/-- Witness for C4 on a concrete always-powered sensor. -/
theorem c4_error_latching_witness :
    readingStateGood (PowerEnv.mk true true true) PowerState.always = true
    ∧ ((incrementError (fun (a : Unit) _ => a) (BuildCfg.mk false false)
          (PowerEnv.mk true true true))^[errorThreshold]
          (SensorSt.make false 100 0 PowerState.always ())).functionalProp
        = false
    ∧ ((incrementError (fun (a : Unit) _ => a) (BuildCfg.mk false false)
          (PowerEnv.mk true true true))^[errorThreshold]
          (SensorSt.make false 100 0 PowerState.always ())).errCount
        = errorThreshold := by
  have h := c4_error_latching (fun (a : Unit) _ => a) (BuildCfg.mk false false)
    (PowerEnv.mk true true true)
    (SensorSt.make false 100 0 PowerState.always ())
    (by decide) rfl rfl rfl rfl rfl
  exact ⟨by decide, h.2.1, h.2.2.1⟩

/-- Witness for C5: the first update from NaN publishes, and two in-band
updates afterwards publish nothing. -/
theorem c5_publish_hysteresis_witness :
    (updateValue (fun (a : Unit) _ => a) (BuildCfg.mk false false)
      (PowerEnv.mk true true true)
      (SensorSt.make false 100 0 PowerState.always ())
      (Dbl.fin 50)).publishCount = 1
    ∧ (([50, 50] : List ℚ).foldl
        (fun u b => updateValue (fun (a : Unit) _ => a)
          (BuildCfg.mk false false) (PowerEnv.mk true true true) u
          (Dbl.fin b))
        { SensorSt.make false 100 0 PowerState.always () with
            value := Dbl.fin 50 }).publishCount = 0 := by
  have h := c5_publish_hysteresis (fun (a : Unit) _ => a)
    (BuildCfg.mk false false) (PowerEnv.mk true true true)
    (SensorSt.make false 100 0 PowerState.always ()) (Dbl.fin 50)
    rfl (by decide) rfl
  have h2 := c5_publish_hysteresis (fun (a : Unit) _ => a)
    (BuildCfg.mk false false) (PowerEnv.mk true true true)
    { SensorSt.make false 100 0 PowerState.always () with
        value := Dbl.fin 50 } (Dbl.fin 50)
    rfl (by decide) rfl
  refine ⟨h.1.trans (by decide), ?_⟩
  exact ((h2.2.2 50 [50, 50] rfl (by
    intro b hb
    fin_cases hb <;> simp [SensorSt.make])).1).trans (by decide)

/-- Witness for C6: an overloaded tick re-anchors to now; a normal tick
advances by exactly the interval. -/
theorem c6_master_timer_drift_witness :
    (finishMasterTimer (fun _ : Unit => true) (fun _ : Unit => true) 1000
      1500 (MasterSt.mk ([] : List Unit) ([] : List Unit) 0 0)).expiry
      = 1500
    ∧ (finishMasterTimer (fun _ : Unit => true) (fun _ : Unit => true) 1000
      1200 (MasterSt.mk ([] : List Unit) ([] : List Unit) 300 200)).expiry
      = 1300 := by
  constructor
  · exact (c6_master_timer_drift (fun _ : Unit => true)
      (fun _ : Unit => true) 1000 1500
      (MasterSt.mk ([] : List Unit) ([] : List Unit) 0 0)).1 (by norm_num)
  · exact ((c6_master_timer_drift (fun _ : Unit => true)
      (fun _ : Unit => true) 1000 1200
      (MasterSt.mk ([] : List Unit) ([] : List Unit) 300 200)).2.1
      (by norm_num)).trans (by norm_num)

/-- Witness for C8: with the cached power state even reading true, a call
before the match exists still throws rather than reporting good. -/
theorem c8_power_gate_fails_closed_witness :
    (PowerEnv.mk false true true).matchExists = false
    ∧ readingStateGoodE (PowerEnv.mk false true true) PowerState.on
      = Except.error () :=
  ⟨rfl, (c8_power_gate_fails_closed (PowerEnv.mk false true true)
    PowerState.on rfl (Or.inl rfl)).1⟩

/-- Witness for C9 on a concrete power-gated sensor. -/
theorem c9_gated_incrementError_witness :
    readingStateGood (PowerEnv.mk true false true) PowerState.on = false
    ∧ (incrementError (fun (a : Unit) _ => a) (BuildCfg.mk false false)
        (PowerEnv.mk true false true)
        (SensorSt.make false 100 0 PowerState.on ())).functionalProp = true
    ∧ (incrementError (fun (a : Unit) _ => a) (BuildCfg.mk false false)
        (PowerEnv.mk true false true)
        (SensorSt.make false 100 0 PowerState.on ())).errCount = 0
    ∧ (incrementError (fun (a : Unit) _ => a) (BuildCfg.mk false false)
        (PowerEnv.mk true false true)
        (SensorSt.make false 100 0 PowerState.on ())).availableProp
      = false := by
  have h := c9_gated_incrementError (fun (a : Unit) _ => a)
    (BuildCfg.mk false false) (PowerEnv.mk true false true)
    (SensorSt.make false 100 0 PowerState.on ()) (by decide)
  exact ⟨by decide, h.1.trans (by decide), (h.2.2.1 rfl).1, (h.2.2.1 rfl).2⟩

/-- Witness for C10: a concrete rejected external write and a concrete
accepted one. -/
theorem c10_external_set_witness :
    setSensorValue (fun (a : Unit) _ => a) (BuildCfg.mk false false)
      (SensorSt.make false 100 0 PowerState.always ()) (Dbl.fin 5)
      = (-13, SensorSt.make false 100 0 PowerState.always ())
    ∧ (setSensorValue (fun (a : Unit) _ => a) (BuildCfg.mk false false)
        (SensorSt.make true 100 0 PowerState.always ())
        (Dbl.fin 5)).2.overriddenState = true := by
  refine ⟨(c10_external_set (fun (a : Unit) _ => a) (BuildCfg.mk false false)
      (SensorSt.make false 100 0 PowerState.always ()) (Dbl.fin 5)).1
      rfl rfl rfl rfl, ?_⟩
  exact ((c10_external_set (fun (a : Unit) _ => a) (BuildCfg.mk false false)
    (SensorSt.make true 100 0 PowerState.always ()) (Dbl.fin 5)).2
    rfl (by decide)).2.1
